import Mathlib

/-!
Shallow embedding of the field-selection and request-construction subsystem of
the `wp-mini` Wattpad API client (src/src/client.rs, src/src/error.rs,
src/src/field/*, src/src/endpoints/*), together with theorems settling the
frozen claims about it.

Conventions of the embedding:
* Rust enums become Lean inductives with the same constructor names.
* `Display`/`to_string` (generated by `strum` and the `impl_field_display!`
  macro) becomes a per-enum `toString` function producing the exact wire
  tokens.
* The mutable accumulation of the builder becomes a pure record update; the shared
  `AtomicBool` authentication flag becomes an explicit `Bool` argument read at
  the point the Rust code performs the atomic load.
* Fallible Rust functions returning `Result<_, WattpadError>` become
  `Except WattpadError _`; the `?` operator becomes the corresponding early
  return in a `match`.
* Network transport is out of scope of the crate (reqwest); a transport
  outcome is passed in explicitly as a `TransportResult` value, and executing
  a request is modelled as producing the `HttpRequest` the code would issue.
-/

namespace WpMini

/-- A single quote character, used inside error-context strings. -/
def squote : String := String.singleton (Char.ofNat 39)

/-- Embeds `ApiErrorResponse` from src/src/error.rs: the decoded generic error
envelope `{code, error, message}` (serde renames `error` to `error_type`). -/
structure ApiErrorResponse where
  code : Int
  error_type : String
  message : String
  deriving Repr, DecidableEq

/-- Embeds the `WattpadError` enum from src/src/error.rs.  The payload of
`RequestError`/`ParseError` is reduced to the message of the underlying error
string, which is all the crate ever carries through. -/
inductive WattpadError where
  | RequestError (msg : String)
  | ParseError (msg : String)
  | AuthenticationFailed
  | AuthenticationRequired (field : String) (ctx : String)
  | MissingRequiredField (field : String) (ctx : String)
  | UserNotFound
  | StoryNotFound
  | PermissionDeniedNotLoggedIn
  | AccessDenied
  | ApiError (code : Int) (error_type : String) (message : String)
  deriving Repr, DecidableEq

/-- Embeds `impl From<ApiErrorResponse> for WattpadError` (src/src/error.rs
lines 84-102): the fixed code-to-variant table, with a catch-all carrying the
original code, type string and message. -/
def wattpadErrorFrom (res : ApiErrorResponse) : WattpadError :=
  if res.code = 1014 then WattpadError.UserNotFound
  else if res.code = 1017 then WattpadError.StoryNotFound
  else if res.code = 1018 then WattpadError.PermissionDeniedNotLoggedIn
  else if res.code = 1154 then WattpadError.AccessDenied
  else WattpadError.ApiError res.code res.error_type res.message

-- ===========================================================================
-- Field enums (src/src/field/*.rs), in dependency order of their nesting.
-- ===========================================================================

/-- Embeds `LanguageField` (src/src/field/language_field.rs). -/
inductive LanguageField where
  | Id
  | Name
  deriving Repr, DecidableEq

/-- `Display` for `LanguageField`: strum camelCase. -/
def LanguageField.toString : LanguageField → String
  | .Id => "id"
  | .Name => "name"

/-- Embeds `UserStubField` (src/src/field/user_stub_field.rs). -/
inductive UserStubField where
  | Username
  | Avatar
  | FullName
  | Verified
  deriving Repr, DecidableEq

/-- `Display` for `UserStubField`: strum camelCase with explicit serialize
overrides `Username => "name"` and `FullName => "fullname"`. -/
def UserStubField.toString : UserStubField → String
  | .Username => "name"
  | .Avatar => "avatar"
  | .FullName => "fullname"
  | .Verified => "verified"

/-- Embeds `PartReferenceField` (src/src/field/part_reference_field.rs). -/
inductive PartReferenceField where
  | Id
  | CreateDate
  deriving Repr, DecidableEq

/-- `Display` for `PartReferenceField`: strum camelCase. -/
def PartReferenceField.toString : PartReferenceField → String
  | .Id => "id"
  | .CreateDate => "createDate"

/-- Embeds `TextUrlField` (src/src/field/text_url_field.rs). -/
inductive TextUrlField where
  | Text
  | RefreshToken
  deriving Repr, DecidableEq

/-- `Display` for `TextUrlField`: strum camelCase with override
`RefreshToken => "refresh_token"`. -/
def TextUrlField.toString : TextUrlField → String
  | .Text => "text"
  | .RefreshToken => "refresh_token"

/-- Embeds `PartContentField` (src/src/field/part_content_field.rs). -/
inductive PartContentField where
  | Text
  | TextHash
  deriving Repr, DecidableEq

/-- `Display` for `PartContentField`: strum camelCase with override
`TextHash => "text_hash"`. -/
def PartContentField.toString : PartContentField → String
  | .Text => "text"
  | .TextHash => "text_hash"

/-- Embeds `PartStubField` (src/src/field/part_stub_field.rs): the one field
enum with an auth-gated field (`Voted`). -/
inductive PartStubField where
  | Id
  | Title
  | Url
  | TextUrl (sub : List TextUrlField)
  | Rating
  | Draft
  | CreateDate
  | ModifyDate
  | HasBannedImages
  | Length
  | VideoId
  | PhotoUrl
  | CommentCount
  | VoteCount
  | ReadCount
  | Voted
  | Deleted
  deriving Repr

/-- `Display` for `PartStubField`, generated by
`impl_field_display!(PartStubField, TextUrl => "text_url")`
(src/src/field/macros.rs): the listed complex variant serializes as
`text_url(<sub1>,<sub2>,...)`; every other variant falls through to the strum
camelCase `AsRefStr`. -/
def PartStubField.toString : PartStubField → String
  | .TextUrl sub =>
      "text_url(" ++ String.intercalate "," (sub.map TextUrlField.toString) ++ ")"
  | .Id => "id"
  | .Title => "title"
  | .Url => "url"
  | .Rating => "rating"
  | .Draft => "draft"
  | .CreateDate => "createDate"
  | .ModifyDate => "modifyDate"
  | .HasBannedImages => "hasBannedImages"
  | .Length => "length"
  | .VideoId => "videoId"
  | .PhotoUrl => "photoUrl"
  | .CommentCount => "commentCount"
  | .VoteCount => "voteCount"
  | .ReadCount => "readCount"
  | .Voted => "voted"
  | .Deleted => "deleted"

/-- Embeds `StoryField` (src/src/field/story_field.rs).  Note that
`Language` carries a nested `Vec<LanguageField>` in the source but is NOT
marked `#[strum(disabled)]` and is NOT listed among the complex variants of
its `impl_field_display!` invocation. -/
inductive StoryField where
  | Id
  | Title
  | Length
  | CreatedDate
  | ModifyDate
  | VoteCount
  | ReadCount
  | CommentCount
  | Language (sub : List LanguageField)
  | User (sub : List UserStubField)
  | Description
  | Cover
  | CoverTimestamp
  | Completed
  | Categories
  | Tags
  | Rating
  | Mature
  | Copyright
  | Url
  | NumParts
  | FirstPartId
  | FirstPublishedPart (sub : List PartReferenceField)
  | LastPublishedPart (sub : List PartReferenceField)
  | Parts (sub : List PartStubField)
  | Deleted
  deriving Repr

/-- `Display` for `StoryField`, generated by
`impl_field_display!(StoryField, User => "user",
FirstPublishedPart => "firstPublishedPart",
LastPublishedPart => "lastPublishedPart", Parts => "parts")`
(src/src/field/story_field.rs lines 78-84).  The four listed complex
variants serialize as `<name>(<subs>)`.  `Language`, although it carries a
sub-selection, is not listed, so it falls through to the `AsRefStr` arm and
serializes as the bare camelCase token `language`, its sub-selection ignored.
`CoverTimestamp` has the strum override `cover_timestamp`. -/
def StoryField.toString : StoryField → String
  | .User sub =>
      "user(" ++ String.intercalate "," (sub.map UserStubField.toString) ++ ")"
  | .FirstPublishedPart sub =>
      "firstPublishedPart(" ++ String.intercalate "," (sub.map PartReferenceField.toString) ++ ")"
  | .LastPublishedPart sub =>
      "lastPublishedPart(" ++ String.intercalate "," (sub.map PartReferenceField.toString) ++ ")"
  | .Parts sub =>
      "parts(" ++ String.intercalate "," (sub.map PartStubField.toString) ++ ")"
  | .Language _ => "language"
  | .Id => "id"
  | .Title => "title"
  | .Length => "length"
  | .CreatedDate => "createdDate"
  | .ModifyDate => "modifyDate"
  | .VoteCount => "voteCount"
  | .ReadCount => "readCount"
  | .CommentCount => "commentCount"
  | .Description => "description"
  | .Cover => "cover"
  | .CoverTimestamp => "cover_timestamp"
  | .Completed => "completed"
  | .Categories => "categories"
  | .Tags => "tags"
  | .Rating => "rating"
  | .Mature => "mature"
  | .Copyright => "copyright"
  | .Url => "url"
  | .NumParts => "numParts"
  | .FirstPartId => "firstPartId"
  | .Deleted => "deleted"

/-- Embeds `PartField` (src/src/field/part_field.rs). -/
inductive PartField where
  | Id
  | Title
  | Url
  | TextUrl (sub : List TextUrlField)
  | Rating
  | Draft
  | ModifyDate
  | CreateDate
  | HasBannedImages
  | Length
  | VideoID
  | PhotoUrl
  | CommentCount
  | VoteCount
  | ReadCount
  | GroupId
  | Group (sub : List StoryField)
  | Deleted
  deriving Repr

/-- `Display` for `PartField`, generated by
`impl_field_display!(PartField, TextUrl => "text_url", Group => "group")`. -/
def PartField.toString : PartField → String
  | .TextUrl sub =>
      "text_url(" ++ String.intercalate "," (sub.map TextUrlField.toString) ++ ")"
  | .Group sub =>
      "group(" ++ String.intercalate "," (sub.map StoryField.toString) ++ ")"
  | .Id => "id"
  | .Title => "title"
  | .Url => "url"
  | .Rating => "rating"
  | .Draft => "draft"
  | .ModifyDate => "modifyDate"
  | .CreateDate => "createDate"
  | .HasBannedImages => "hasBannedImages"
  | .Length => "length"
  | .VideoID => "videoId"
  | .PhotoUrl => "photoUrl"
  | .CommentCount => "commentCount"
  | .VoteCount => "voteCount"
  | .ReadCount => "readCount"
  | .GroupId => "groupId"
  | .Deleted => "deleted"

/-- Embeds `UserField` (src/src/field/user_field.rs): all variants simple.
Overrides: `VerifiedEmail => "verified_email"`,
`PreferredCategories => "preferred_categories"`. -/
inductive UserField where
  | Username
  | Avatar
  | IsPrivate
  | BackgroundUrl
  | Name
  | Description
  | Badges
  | Status
  | Gender
  | GenderCode
  | Language
  | Locale
  | CreateDate
  | ModifyDate
  | Location
  | Verified
  | Ambassador
  | Facebook
  | Website
  | Lulu
  | Smashwords
  | Bubok
  | VotesReceived
  | NumStoriesPublished
  | NumFollowing
  | NumFollowers
  | NumMessages
  | NumLists
  | VerifiedEmail
  | PreferredCategories
  | AllowCrawler
  | Deeplink
  deriving Repr, DecidableEq

/-- `Display` for `UserField`: strum camelCase with the two overrides. -/
def UserField.toString : UserField → String
  | .Username => "username"
  | .Avatar => "avatar"
  | .IsPrivate => "isPrivate"
  | .BackgroundUrl => "backgroundUrl"
  | .Name => "name"
  | .Description => "description"
  | .Badges => "badges"
  | .Status => "status"
  | .Gender => "gender"
  | .GenderCode => "genderCode"
  | .Language => "language"
  | .Locale => "locale"
  | .CreateDate => "createDate"
  | .ModifyDate => "modifyDate"
  | .Location => "location"
  | .Verified => "verified"
  | .Ambassador => "ambassador"
  | .Facebook => "facebook"
  | .Website => "website"
  | .Lulu => "lulu"
  | .Smashwords => "smashwords"
  | .Bubok => "bubok"
  | .VotesReceived => "votesReceived"
  | .NumStoriesPublished => "numStoriesPublished"
  | .NumFollowing => "numFollowing"
  | .NumFollowers => "numFollowers"
  | .NumMessages => "numMessages"
  | .NumLists => "numLists"
  | .VerifiedEmail => "verified_email"
  | .PreferredCategories => "preferred_categories"
  | .AllowCrawler => "allowCrawler"
  | .Deeplink => "deeplink"

-- ===========================================================================
-- DefaultableFields / AuthRequiredFields (src/src/field/mod.rs and impls)
-- ===========================================================================

/-- `DefaultableFields::default_fields` for `LanguageField`. -/
def LanguageField.default_fields : List LanguageField := [.Id]

/-- `DefaultableFields::default_fields` for `UserStubField`. -/
def UserStubField.default_fields : List UserStubField := [.Username, .Avatar]

/-- `DefaultableFields::default_fields` for `PartReferenceField`. -/
def PartReferenceField.default_fields : List PartReferenceField := [.Id]

/-- `DefaultableFields::default_fields` for `TextUrlField`. -/
def TextUrlField.default_fields : List TextUrlField := [.Text]

/-- `DefaultableFields::default_fields` for `PartContentField`. -/
def PartContentField.default_fields : List PartContentField := [.Text]

/-- `DefaultableFields::default_fields` for `PartStubField`
(src/src/field/part_stub_field.rs lines 65-77). -/
def PartStubField.default_fields : List PartStubField :=
  [.Id, .Title, .TextUrl [.Text], .Rating, .VideoId, .PhotoUrl, .ModifyDate]

/-- `DefaultableFields::default_fields` for `StoryField`
(src/src/field/story_field.rs lines 88-118). -/
def StoryField.default_fields : List StoryField :=
  [.Id, .Title, .Length, .CreatedDate, .ModifyDate, .VoteCount, .ReadCount,
   .CommentCount, .Language [.Id], .Description, .Cover, .CoverTimestamp,
   .Completed, .Categories, .Tags, .Rating, .Mature, .Copyright, .Url,
   .NumParts, .FirstPublishedPart [.Id], .LastPublishedPart [.Id],
   .Parts [.Id], .Deleted, .User [.Username]]

/-- `DefaultableFields::default_fields` for `PartField`. -/
def PartField.default_fields : List PartField := [.Id, .Title, .Url]

/-- `DefaultableFields::default_fields` for `UserField`. -/
def UserField.default_fields : List UserField :=
  [.Username, .Avatar, .BackgroundUrl, .Name, .Description, .CreateDate,
   .ModifyDate, .VotesReceived, .NumStoriesPublished, .NumFollowing,
   .NumFollowers, .NumMessages, .NumLists]

/-- `AuthRequiredFields::auth_required_fields` for `PartStubField`
(src/src/field/part_stub_field.rs lines 59-63): the only override of the
trait default in the crate. -/
def PartStubField.auth_required_fields : List PartStubField := [.Voted]

/-- The derived `PartialEq` for `PartStubField`: structural equality,
comparing the nested sub-selection lists elementwise. -/
def PartStubField.beq : PartStubField → PartStubField → Bool
  | .Id, .Id => true
  | .Title, .Title => true
  | .Url, .Url => true
  | .TextUrl a, .TextUrl b => a == b
  | .Rating, .Rating => true
  | .Draft, .Draft => true
  | .CreateDate, .CreateDate => true
  | .ModifyDate, .ModifyDate => true
  | .HasBannedImages, .HasBannedImages => true
  | .Length, .Length => true
  | .VideoId, .VideoId => true
  | .PhotoUrl, .PhotoUrl => true
  | .CommentCount, .CommentCount => true
  | .VoteCount, .VoteCount => true
  | .ReadCount, .ReadCount => true
  | .Voted, .Voted => true
  | .Deleted, .Deleted => true
  | _, _ => false

/-- `AuthRequiredFields::auth_required` for `PartStubField`: membership of
`self` in `auth_required_fields` via `Vec::contains` (the trait body in
src/src/field/mod.rs lines 53-58, at the overridden list). -/
def PartStubField.auth_required (f : PartStubField) : Bool :=
  PartStubField.auth_required_fields.any (fun g => PartStubField.beq g f)

/-- `auth_required` for `StoryField`: the trait default
(`auth_required_fields` is `vec![]`, so `contains` is always false;
src/src/field/mod.rs lines 44-59, impl at story_field.rs line 86). -/
def StoryField.auth_required (_ : StoryField) : Bool := false

/-- `auth_required` for `PartField`: trait default, always false. -/
def PartField.auth_required (_ : PartField) : Bool := false

/-- `auth_required` for `UserField`: trait default, always false. -/
def UserField.auth_required (_ : UserField) : Bool := false

/-- `auth_required` for `LanguageField`: trait default, always false. -/
def LanguageField.auth_required (_ : LanguageField) : Bool := false

/-- `auth_required` for `TextUrlField`: trait default, always false. -/
def TextUrlField.auth_required (_ : TextUrlField) : Bool := false

/-- `auth_required` for `PartContentField`: trait default, always false. -/
def PartContentField.auth_required (_ : PartContentField) : Bool := false

/-- Modelled from the spec: `UserStubField` does not implement the
`AuthRequiredFields` trait in the source (it is only ever nested); the spec
(section 4.1) makes `requiresAuth` false for every field of kinds that have
no protected fields, which coincides with the default body of the trait. -/
def UserStubField.auth_required (_ : UserStubField) : Bool := false

/-- Modelled from the spec: `PartReferenceField` does not implement the
`AuthRequiredFields` trait in the source; as for `UserStubField`, the spec
makes `requiresAuth` false for all its fields. -/
def PartReferenceField.auth_required (_ : PartReferenceField) : Bool := false

/-- Bundle of the trait methods the generic `WattpadRequestBuilder::fields`
requires of its type parameter `T: ToString + DefaultableFields +
AuthRequiredFields` (src/src/client.rs lines 286-288). -/
structure FieldTraits (α : Type) where
  to_string : α → String
  default_fields : List α
  auth_required : α → Bool

/-- The trait dictionary for `StoryField`. -/
def StoryField.traits : FieldTraits StoryField :=
  { to_string := StoryField.toString,
    default_fields := StoryField.default_fields,
    auth_required := StoryField.auth_required }

/-- The trait dictionary for `PartField`. -/
def PartField.traits : FieldTraits PartField :=
  { to_string := PartField.toString,
    default_fields := PartField.default_fields,
    auth_required := PartField.auth_required }

/-- The trait dictionary for `UserField`. -/
def UserField.traits : FieldTraits UserField :=
  { to_string := UserField.toString,
    default_fields := UserField.default_fields,
    auth_required := UserField.auth_required }

/-- The trait dictionary for `PartStubField`. -/
def PartStubField.traits : FieldTraits PartStubField :=
  { to_string := PartStubField.toString,
    default_fields := PartStubField.default_fields,
    auth_required := PartStubField.auth_required }

/-- The trait dictionary for `LanguageField`. -/
def LanguageField.traits : FieldTraits LanguageField :=
  { to_string := LanguageField.toString,
    default_fields := LanguageField.default_fields,
    auth_required := LanguageField.auth_required }

/-- The trait dictionary for `TextUrlField`. -/
def TextUrlField.traits : FieldTraits TextUrlField :=
  { to_string := TextUrlField.toString,
    default_fields := TextUrlField.default_fields,
    auth_required := TextUrlField.auth_required }

/-- The trait dictionary for `PartContentField`. -/
def PartContentField.traits : FieldTraits PartContentField :=
  { to_string := PartContentField.toString,
    default_fields := PartContentField.default_fields,
    auth_required := PartContentField.auth_required }

-- ===========================================================================
-- WattpadRequestBuilder (src/src/client.rs lines 221-380)
-- ===========================================================================

/-- Embeds the accumulating state of `WattpadRequestBuilder`
(src/src/client.rs lines 221-228).  The `client` and `is_authenticated`
references are not part of the accumulated request data: the flag is passed
explicitly to the operations that load it. -/
structure WattpadRequestBuilder where
  method : String
  path : String
  params : List (String × String)
  auth_required : Bool
  deriving Repr, DecidableEq

/-- `WattpadRequestBuilder::new` (src/src/client.rs lines 232-246): empty
parameter list, `auth_required` initialized to `false`. -/
def WattpadRequestBuilder.new (method : String) (path : String) :
    WattpadRequestBuilder :=
  { method := method, path := path, params := [], auth_required := false }

/-- `WattpadRequestBuilder::requires_auth` (src/src/client.rs lines 262-265). -/
def WattpadRequestBuilder.requires_auth (b : WattpadRequestBuilder) :
    WattpadRequestBuilder :=
  { b with auth_required := true }

/-- `WattpadRequestBuilder::param` (src/src/client.rs lines 318-323): adds
`key=value` only when the value is present. -/
def WattpadRequestBuilder.param (b : WattpadRequestBuilder) (key : String)
    (value : Option String) : WattpadRequestBuilder :=
  match value with
  | some val => { b with params := b.params ++ [(key, val)] }
  | none => b

/-- `WattpadRequestBuilder::check_endpoint_auth` (src/src/client.rs lines
249-257): fails iff the endpoint-level flag is set and the client is
unauthenticated. -/
def WattpadRequestBuilder.check_endpoint_auth (b : WattpadRequestBuilder)
    (is_authenticated : Bool) : Except WattpadError Unit :=
  if b.auth_required && !is_authenticated then
    Except.error (WattpadError.AuthenticationRequired "Endpoint"
      ("The endpoint at " ++ squote ++ b.path ++ squote ++ " requires authentication."))
  else
    Except.ok ()

/-- The selection-resolution step of `WattpadRequestBuilder::fields`
(src/src/client.rs lines 290-293): a non-empty caller list is used as given,
otherwise (`None` or empty) the `default_fields()` of the kind. -/
def resolve_fields (K : FieldTraits α) (fs : Option (List α)) : List α :=
  match fs with
  | some f => if f.isEmpty then K.default_fields else f
  | none => K.default_fields

/-- `WattpadRequestBuilder::fields` (src/src/client.rs lines 286-315):
resolves the selection, and when the client is unauthenticated scans the
top-level entries with `find` for one whose `auth_required()` is true,
failing with `AuthenticationRequired` naming the wire token of that field; on
success appends a single `fields` parameter holding the comma-joined
serializations, in selection order. -/
def WattpadRequestBuilder.fields (b : WattpadRequestBuilder)
    (K : FieldTraits α) (is_authenticated : Bool) (fs : Option (List α)) :
    Except WattpadError WattpadRequestBuilder :=
  let fields_to_query := resolve_fields K fs
  match (if !is_authenticated then fields_to_query.find? K.auth_required else none) with
  | some auth_field =>
      Except.error (WattpadError.AuthenticationRequired (K.to_string auth_field)
        ("The field " ++ squote ++ K.to_string auth_field ++ squote ++
          " requires authentication."))
  | none =>
      Except.ok { b with params := b.params ++
        [("fields", String.intercalate "," (fields_to_query.map K.to_string))] }

-- ===========================================================================
-- Transport model and execution (src/src/client.rs lines 140-213, 326-379)
-- ===========================================================================

/-- The outcome of handing a request to the external HTTP transport
(reqwest): either a value, or a transport failure carrying its message.  The
`?` after `send().await` in the source is an early return of
`WattpadError::RequestError` on the failure case. -/
inductive TransportResult (α : Type) where
  | ok (val : α)
  | err (msg : String)
  deriving Repr, DecidableEq

/-- The observable parts of a `reqwest::Response` that the own logic of the crate
inspects: the HTTP status and the response cookies (name/value pairs). -/
structure HttpResponse where
  status : Nat
  cookies : List (String × String)
  deriving Repr, DecidableEq

/-- The HTTP request a builder issues at execution: method, full URL and the
accumulated query parameters (src/src/client.rs lines 329-335). -/
structure HttpRequest where
  method : String
  url : String
  params : List (String × String)
  deriving Repr, DecidableEq

/-- `WattpadClient::authenticate` (src/src/client.rs lines 140-157), as a
function of the current flag value and the transport outcome of the login
POST; returns the result of the call paired with the new flag value.  A transport
failure propagates via `?` before the flag is touched; otherwise the flag is
stored `false` and `AuthenticationFailed` returned when the response carries
no cookie, and stored `true` with success otherwise. -/
def authenticate (is_authenticated : Bool)
    (send_result : TransportResult HttpResponse) :
    Except WattpadError Unit × Bool :=
  match send_result with
  | .err msg => (Except.error (WattpadError.RequestError msg), is_authenticated)
  | .ok response =>
      if response.cookies.isEmpty then
        (Except.error WattpadError.AuthenticationFailed, false)
      else
        (Except.ok (), true)

/-- `WattpadClient::deauthenticate` (src/src/client.rs lines 169-179), as a
function of the current flag value and the transport outcome of the logout
GET.  The source is `self.http.get(url).send().await?;` followed by
`self.is_authenticated.store(false, ...)`: on a transport failure the `?`
returns the error before the store runs, leaving the flag at its previous
value. -/
def deauthenticate (is_authenticated : Bool)
    (send_result : TransportResult Unit) :
    Except WattpadError Unit × Bool :=
  match send_result with
  | .err msg => (Except.error (WattpadError.RequestError msg), is_authenticated)
  | .ok _ => (Except.ok (), false)

/-- The request-issuing step shared by the three `execute*` variants
(src/src/client.rs lines 326-379): run `check_endpoint_auth` first and fail
fast without issuing anything; otherwise issue exactly one request with the
accumulated method, path and query. -/
def WattpadRequestBuilder.issue (b : WattpadRequestBuilder)
    (is_authenticated : Bool) : Except WattpadError HttpRequest :=
  match b.check_endpoint_auth is_authenticated with
  | .error e => Except.error e
  | .ok _ =>
      Except.ok { method := b.method,
                  url := "https://www.wattpad.com" ++ b.path,
                  params := b.params }

/-- `WattpadRequestBuilder::execute` (JSON-decoded variant), up to the point
the request goes on the wire; body materialization differs between the three
variants only after a successful response and is outside this model. -/
def WattpadRequestBuilder.execute (b : WattpadRequestBuilder)
    (is_authenticated : Bool) : Except WattpadError HttpRequest :=
  b.issue is_authenticated

/-- `WattpadRequestBuilder::execute_raw_text`, up to the issued request. -/
def WattpadRequestBuilder.execute_raw_text (b : WattpadRequestBuilder)
    (is_authenticated : Bool) : Except WattpadError HttpRequest :=
  b.issue is_authenticated

/-- `WattpadRequestBuilder::execute_bytes`, up to the issued request. -/
def WattpadRequestBuilder.execute_bytes (b : WattpadRequestBuilder)
    (is_authenticated : Bool) : Except WattpadError HttpRequest :=
  b.issue is_authenticated

/-- Runs a builder pipeline of the shape `build?.execute()` as the endpoint
methods do (e.g. src/src/endpoints/story.rs lines 50-64): a failed build
(`?` on `fields`) aborts before `execute`, so no request is issued; a failed
endpoint check inside `execute` likewise issues nothing.  Returns the call
result paired with the list of HTTP requests that actually went out. -/
def run_request (build : Except WattpadError WattpadRequestBuilder)
    (is_authenticated : Bool) :
    Except WattpadError HttpRequest × List HttpRequest :=
  match build with
  | .error e => (Except.error e, [])
  | .ok b =>
      match b.execute is_authenticated with
      | .error e => (Except.error e, [])
      | .ok req => (Except.ok req, [req])

-- ===========================================================================
-- Public endpoint operations (src/src/endpoints/user.rs, story.rs)
-- ===========================================================================

/-- The builder-construction step of `UserClient::get_user_info`
(src/src/endpoints/user.rs lines 53-67): `WattpadRequestBuilder::new` on GET
`/api/v3/users/{username}` followed by `.fields(fields)`.  `requires_auth()`
is never invoked. -/
def get_user_info_build (is_authenticated : Bool) (username : String)
    (fs : Option (List UserField)) : Except WattpadError WattpadRequestBuilder :=
  (WattpadRequestBuilder.new "GET" ("/api/v3/users/" ++ username)).fields
    UserField.traits is_authenticated fs

/-- `UserClient::get_user_info`: the built request executed via `execute()`. -/
def get_user_info (is_authenticated : Bool) (username : String)
    (fs : Option (List UserField)) :
    Except WattpadError HttpRequest × List HttpRequest :=
  run_request (get_user_info_build is_authenticated username fs) is_authenticated

/-- The builder-construction step of `StoryClient::get_story_info`
(src/src/endpoints/story.rs lines 50-64): GET `/api/v3/stories/{story_id}`
followed by `.fields(fields)`.  `requires_auth()` is never invoked. -/
def get_story_info_build (is_authenticated : Bool) (story_id : Nat)
    (fs : Option (List StoryField)) : Except WattpadError WattpadRequestBuilder :=
  (WattpadRequestBuilder.new "GET" ("/api/v3/stories/" ++ toString story_id)).fields
    StoryField.traits is_authenticated fs

/-- `StoryClient::get_story_info`: the built request executed via `execute()`. -/
def get_story_info (is_authenticated : Bool) (story_id : Nat)
    (fs : Option (List StoryField)) :
    Except WattpadError HttpRequest × List HttpRequest :=
  run_request (get_story_info_build is_authenticated story_id fs) is_authenticated

/-- The builder-construction step of `StoryClient::get_part_info`
(src/src/endpoints/story.rs lines 97-111): GET `/api/v3/story_parts/{part_id}`
followed by `.fields(fields)`.  `requires_auth()` is never invoked. -/
def get_part_info_build (is_authenticated : Bool) (part_id : Nat)
    (fs : Option (List PartField)) : Except WattpadError WattpadRequestBuilder :=
  (WattpadRequestBuilder.new "GET" ("/api/v3/story_parts/" ++ toString part_id)).fields
    PartField.traits is_authenticated fs

/-- `StoryClient::get_part_info`: the built request executed via `execute()`. -/
def get_part_info (is_authenticated : Bool) (part_id : Nat)
    (fs : Option (List PartField)) :
    Except WattpadError HttpRequest × List HttpRequest :=
  run_request (get_part_info_build is_authenticated part_id fs) is_authenticated

/-- The builder of `StoryClient::get_part_content_raw`: GET `/apiv2/` with
`m=storytext` and `id`.  `requires_auth()` is never invoked. -/
def get_part_content_raw_build (part_id : Nat) : WattpadRequestBuilder :=
  ((WattpadRequestBuilder.new "GET" "/apiv2/").param "m"
    (some "storytext")).param "id" (some (toString part_id))

/-- `StoryClient::get_part_content_raw`, executed via `execute_raw_text()`. -/
def get_part_content_raw (is_authenticated : Bool) (part_id : Nat) :
    Except WattpadError HttpRequest × List HttpRequest :=
  run_request (Except.ok (get_part_content_raw_build part_id)) is_authenticated

/-- The builder of `StoryClient::get_part_content_json`: GET `/apiv2/` with
`m=storytext`, `id`, `output=json`.  `requires_auth()` is never invoked. -/
def get_part_content_json_build (part_id : Nat) : WattpadRequestBuilder :=
  (((WattpadRequestBuilder.new "GET" "/apiv2/").param "m"
    (some "storytext")).param "id" (some (toString part_id))).param "output"
    (some "json")

/-- `StoryClient::get_part_content_json`, executed via `execute()`. -/
def get_part_content_json (is_authenticated : Bool) (part_id : Nat) :
    Except WattpadError HttpRequest × List HttpRequest :=
  run_request (Except.ok (get_part_content_json_build part_id)) is_authenticated

/-- The builder of `StoryClient::get_story_content_zip`: GET `/apiv2/` with
`m=storytext`, `group_id`, `output=zip`.  `requires_auth()` is never
invoked. -/
def get_story_content_zip_build (story_id : Nat) : WattpadRequestBuilder :=
  (((WattpadRequestBuilder.new "GET" "/apiv2/").param "m"
    (some "storytext")).param "group_id" (some (toString story_id))).param "output"
    (some "zip")

/-- `StoryClient::get_story_content_zip`, executed via `execute_bytes()`. -/
def get_story_content_zip (is_authenticated : Bool) (story_id : Nat) :
    Except WattpadError HttpRequest × List HttpRequest :=
  run_request (Except.ok (get_story_content_zip_build story_id)) is_authenticated

-- ===========================================================================
-- Helper lemmas (shared; not tied to any single claim)
-- ===========================================================================

/-- The serialized fields parameter value for a resolved selection. -/
def fields_str (K : FieldTraits α) (l : List α) : String :=
  String.intercalate "," (l.map K.to_string)

/-- When the client is authenticated, `fields` skips the gate entirely and
appends the serialized parameter. -/
theorem fields_true_eq {α : Type} (K : FieldTraits α) (b : WattpadRequestBuilder)
    (fs : Option (List α)) :
    b.fields K true fs = Except.ok { b with params := b.params ++
      [("fields", fields_str K (resolve_fields K fs))] } := rfl

/-- When the client is unauthenticated and the scan finds no auth-required
entry, `fields` succeeds with the same parameter. -/
theorem fields_false_eq_of_find?_none {α : Type} {K : FieldTraits α}
    {fs : Option (List α)} (b : WattpadRequestBuilder)
    (hg : (resolve_fields K fs).find? K.auth_required = none) :
    b.fields K false fs = Except.ok { b with params := b.params ++
      [("fields", fields_str K (resolve_fields K fs))] } := by
  simp only [WattpadRequestBuilder.fields, Bool.not_false, if_true, hg, fields_str]

/-- When the client is unauthenticated and the scan finds an auth-required
entry, `fields` fails with `AuthenticationRequired` naming its wire token. -/
theorem fields_false_eq_of_find?_some {α : Type} {K : FieldTraits α}
    {fs : Option (List α)} (b : WattpadRequestBuilder) {g : α}
    (hg : (resolve_fields K fs).find? K.auth_required = some g) :
    b.fields K false fs = Except.error
      (WattpadError.AuthenticationRequired (K.to_string g)
        ("The field " ++ squote ++ K.to_string g ++ squote ++
          " requires authentication.")) := by
  simp only [WattpadRequestBuilder.fields, Bool.not_false, if_true, hg]

/-- A kind with no auth-required field passes the gate in every
authentication state. -/
theorem fields_ok_of_no_auth {α : Type} {K : FieldTraits α}
    (hK : ∀ f, K.auth_required f = false) (b : WattpadRequestBuilder)
    (ia : Bool) (fs : Option (List α)) :
    b.fields K ia fs = Except.ok { b with params := b.params ++
      [("fields", fields_str K (resolve_fields K fs))] } := by
  cases ia
  · exact fields_false_eq_of_find?_none b
      (List.find?_eq_none.mpr (fun x _ => by simp [hK x]))
  · exact fields_true_eq K b fs

-- ===========================================================================
-- Claim theorems
-- ===========================================================================

/-- C1: for every resource kind (any trait dictionary `K`) and every field
selection, the auth gate inside `WattpadRequestBuilder::fields` succeeds
whenever the authentication flag is true; when the flag is false it fails iff
at least one top-level entry of the resolved selection has `auth_required`
true (the scan is `find` over the top-level list only, so composite
sub-selections are not inspected), and the `field` of the error is the wire token
of the first such entry in selection order (the `find?` result). -/
theorem C1_fields_auth_gate {α : Type} (K : FieldTraits α)
    (b : WattpadRequestBuilder) (fs : Option (List α)) :
    (∃ b2, b.fields K true fs = Except.ok b2)
    ∧ ((∃ e, b.fields K false fs = Except.error e) ↔
        ∃ f, f ∈ resolve_fields K fs ∧ K.auth_required f = true)
    ∧ (∀ g, (resolve_fields K fs).find? K.auth_required = some g →
        b.fields K false fs = Except.error
          (WattpadError.AuthenticationRequired (K.to_string g)
            ("The field " ++ squote ++ K.to_string g ++ squote ++
              " requires authentication."))) := by
  refine ⟨⟨_, fields_true_eq K b fs⟩, ?_, fun g hg => fields_false_eq_of_find?_some b hg⟩
  constructor
  · rintro ⟨e, he⟩
    rcases hfind : (resolve_fields K fs).find? K.auth_required with _ | g
    · rw [fields_false_eq_of_find?_none b hfind] at he
      exact absurd he (by simp)
    · exact List.find?_isSome.mp (by simp [hfind])
  · intro hex
    rcases hfind : (resolve_fields K fs).find? K.auth_required with _ | g
    · rcases hex with ⟨f, hf, hauth⟩
      have := List.find?_eq_none.mp hfind f hf
      simp [hauth] at this
    · exact ⟨_, fields_false_eq_of_find?_some b hfind⟩

/-- Witness for C1 at a concrete input: the part-stub kind, unauthenticated,
with a selection whose first auth-required entry is `Voted`. -/
theorem C1_witness :
    (WattpadRequestBuilder.new "GET" "/api/v3/story_parts/1").fields
        PartStubField.traits false
        (some [PartStubField.Title, PartStubField.Voted, PartStubField.Deleted])
      = Except.error (WattpadError.AuthenticationRequired "voted"
          ("The field " ++ squote ++ "voted" ++ squote ++
            " requires authentication.")) :=
  (C1_fields_auth_gate PartStubField.traits
      (WattpadRequestBuilder.new "GET" "/api/v3/story_parts/1")
      (some [PartStubField.Title, PartStubField.Voted, PartStubField.Deleted])).2.2
    PartStubField.Voted (by rfl)

/-- C2: the conversion of a decoded error envelope maps code 1014 to
`UserNotFound`, 1017 to `StoryNotFound`, 1018 to
`PermissionDeniedNotLoggedIn`, 1154 to `AccessDenied`, and every other code
to the generic `ApiError` variant carrying the original code, error-type
string and message verbatim. -/
theorem C2_api_error_mapping :
    (∀ t m, wattpadErrorFrom ⟨1014, t, m⟩ = WattpadError.UserNotFound)
    ∧ (∀ t m, wattpadErrorFrom ⟨1017, t, m⟩ = WattpadError.StoryNotFound)
    ∧ (∀ t m, wattpadErrorFrom ⟨1018, t, m⟩ = WattpadError.PermissionDeniedNotLoggedIn)
    ∧ (∀ t m, wattpadErrorFrom ⟨1154, t, m⟩ = WattpadError.AccessDenied)
    ∧ (∀ (c : Int) t m, c ≠ 1014 → c ≠ 1017 → c ≠ 1018 → c ≠ 1154 →
        wattpadErrorFrom ⟨c, t, m⟩ = WattpadError.ApiError c t m) := by
  refine ⟨fun t m => rfl, fun t m => rfl, fun t m => rfl, fun t m => rfl,
    fun c t m h1 h2 h3 h4 => ?_⟩
  simp [wattpadErrorFrom, h1, h2, h3, h4]

/-- Witness for C2: the unmapped code 9999 passes through verbatim. -/
theorem C2_witness :
    wattpadErrorFrom ⟨9999, "ServiceError", "Something went wrong."⟩ =
      WattpadError.ApiError 9999 "ServiceError" "Something went wrong." :=
  C2_api_error_mapping.2.2.2.2 9999 "ServiceError" "Something went wrong."
    (by decide) (by decide) (by decide) (by decide)

/-- C3 counterexample: with the flag previously true and the logout GET
failing at the transport, `deauthenticate` returns the transport error and
leaves the flag at `true` — the claim that the flag is false afterwards
regardless of transport outcome is false on this input (the `?` on
`send().await` returns before the `store(false)` line runs). -/
theorem C3_counterexample :
    ¬ ((deauthenticate true (TransportResult.err "connection reset")).2 = false) := by
  decide

/-- C3 (amended): after `deauthenticate`, the flag is false whenever the
logout HTTP call itself succeeds; when the transport call fails, the error is
returned early and the flag retains its previous value. -/
theorem C3_deauthenticate_flag (is_auth : Bool) :
    (∀ u, deauthenticate is_auth (TransportResult.ok u) = (Except.ok (), false))
    ∧ (∀ msg, deauthenticate is_auth (TransportResult.err msg) =
        (Except.error (WattpadError.RequestError msg), is_auth)) :=
  ⟨fun _ => rfl, fun _ => rfl⟩

/-- C5: `authenticate` sets the flag to true and returns success exactly when
the response carries at least one cookie; with zero cookies it returns
`AuthenticationFailed` and sets the flag to false, even if the flag was
previously true and regardless of HTTP status. -/
theorem C5_authenticate_cookie_detection (prev : Bool) (status : Nat)
    (cookies : List (String × String)) :
    (cookies ≠ [] →
      authenticate prev (TransportResult.ok ⟨status, cookies⟩) = (Except.ok (), true))
    ∧ (cookies = [] →
      authenticate prev (TransportResult.ok ⟨status, cookies⟩) =
        (Except.error WattpadError.AuthenticationFailed, false)) := by
  constructor
  · intro h
    simp [authenticate, h]
  · intro h
    simp [authenticate, h]

/-- Witness for C5: a previously-authenticated client receiving a cookie-free
HTTP 200 login response is failed and deauthenticated; an unauthenticated
client receiving a cookie-bearing HTTP 403 response is authenticated. -/
theorem C5_witness :
    authenticate true (TransportResult.ok ⟨200, []⟩) =
        (Except.error WattpadError.AuthenticationFailed, false)
    ∧ authenticate false (TransportResult.ok ⟨403, [("token", "abc")]⟩) =
        (Except.ok (), true) :=
  ⟨(C5_authenticate_cookie_detection true 200 []).2 rfl,
   (C5_authenticate_cookie_detection false 403 [("token", "abc")]).1 (by simp)⟩

/-- C4: for every client state and every selection whose resolved top-level
entries include an auth-required field, if the client is unauthenticated then
`fields()` itself returns the `AuthenticationRequired` error naming the wire
token of the first such entry (so no builder with a `fields` parameter ever
exists), and the `build?.execute()` pipeline issues zero network calls. -/
theorem C4_unauth_protected_field_short_circuits {α : Type} (K : FieldTraits α)
    (b : WattpadRequestBuilder) (fs : Option (List α))
    (h : ∃ f, f ∈ resolve_fields K fs ∧ K.auth_required f = true) :
    ∃ g, (resolve_fields K fs).find? K.auth_required = some g
      ∧ b.fields K false fs = Except.error
          (WattpadError.AuthenticationRequired (K.to_string g)
            ("The field " ++ squote ++ K.to_string g ++ squote ++
              " requires authentication."))
      ∧ run_request (b.fields K false fs) false =
          (Except.error (WattpadError.AuthenticationRequired (K.to_string g)
            ("The field " ++ squote ++ K.to_string g ++ squote ++
              " requires authentication.")), []) := by
  have hsome : ((resolve_fields K fs).find? K.auth_required).isSome :=
    List.find?_isSome.mpr h
  rcases hfind : (resolve_fields K fs).find? K.auth_required with _ | g
  · rw [hfind] at hsome
    exact absurd hsome (by simp)
  · refine ⟨g, rfl, fields_false_eq_of_find?_some b hfind, ?_⟩
    rw [fields_false_eq_of_find?_some b hfind]
    rfl

/-- Witness for C4: unauthenticated request of the part-stub selection
`[Voted]` fails naming `voted` and issues no request. -/
theorem C4_witness :
    ∃ g, (resolve_fields PartStubField.traits
            (some [PartStubField.Voted])).find? PartStubField.traits.auth_required = some g
      ∧ (WattpadRequestBuilder.new "GET" "/p").fields PartStubField.traits false
            (some [PartStubField.Voted]) = Except.error
          (WattpadError.AuthenticationRequired (PartStubField.traits.to_string g)
            ("The field " ++ squote ++ PartStubField.traits.to_string g ++ squote ++
              " requires authentication."))
      ∧ run_request ((WattpadRequestBuilder.new "GET" "/p").fields PartStubField.traits false
            (some [PartStubField.Voted])) false =
          (Except.error (WattpadError.AuthenticationRequired
            (PartStubField.traits.to_string g)
            ("The field " ++ squote ++ PartStubField.traits.to_string g ++ squote ++
              " requires authentication.")), []) :=
  C4_unauth_protected_field_short_circuits PartStubField.traits
    (WattpadRequestBuilder.new "GET" "/p") (some [PartStubField.Voted])
    ⟨PartStubField.Voted, List.Mem.head _, rfl⟩

/-- C6 counterexample: `StoryField::Language` carries a sub-selection (it is
a composite field in the sense of the spec) but is not listed among the complex
variants of its `impl_field_display!` invocation, so it serializes as the
bare token `language` with the sub-selection dropped — not as
`language(id,name)` as the claim requires of every composite field. -/
theorem C6_counterexample :
    StoryField.toString (StoryField.Language [LanguageField.Id, LanguageField.Name])
        = "language"
    ∧ StoryField.toString (StoryField.Language [LanguageField.Id, LanguageField.Name])
        ≠ "language(" ++ LanguageField.toString LanguageField.Id ++ "," ++
            LanguageField.toString LanguageField.Name ++ ")" := by
  exact ⟨rfl, by decide⟩

/-- C6 (amended): serialization is a pure function of the field identifier;
every composite variant registered in the `impl_field_display!` of its enum
invocation (`User`, `FirstPublishedPart`, `LastPublishedPart`, `Parts` on
`StoryField`; `TextUrl` on `PartStubField`; `TextUrl`, `Group` on
`PartField`) with sub-selection `[a, b]` serializes exactly as
`<token>(<serialize a>,<serialize b>)`, the empty sub-selection yielding
`<token>()`; the one composite variant not registered, `StoryField::Language`,
serializes as its bare token `language`, its sub-selection ignored. -/
theorem C6_composite_serialization :
    (∀ sub, StoryField.toString (StoryField.User sub) =
      "user(" ++ String.intercalate "," (sub.map UserStubField.toString) ++ ")")
    ∧ (∀ sub, StoryField.toString (StoryField.FirstPublishedPart sub) =
      "firstPublishedPart(" ++ String.intercalate "," (sub.map PartReferenceField.toString) ++ ")")
    ∧ (∀ sub, StoryField.toString (StoryField.LastPublishedPart sub) =
      "lastPublishedPart(" ++ String.intercalate "," (sub.map PartReferenceField.toString) ++ ")")
    ∧ (∀ sub, StoryField.toString (StoryField.Parts sub) =
      "parts(" ++ String.intercalate "," (sub.map PartStubField.toString) ++ ")")
    ∧ (∀ sub, PartStubField.toString (PartStubField.TextUrl sub) =
      "text_url(" ++ String.intercalate "," (sub.map TextUrlField.toString) ++ ")")
    ∧ (∀ sub, PartField.toString (PartField.TextUrl sub) =
      "text_url(" ++ String.intercalate "," (sub.map TextUrlField.toString) ++ ")")
    ∧ (∀ sub, PartField.toString (PartField.Group sub) =
      "group(" ++ String.intercalate "," (sub.map StoryField.toString) ++ ")")
    ∧ (∀ a b, StoryField.toString (StoryField.User [a, b]) =
      "user(" ++ UserStubField.toString a ++ "," ++ UserStubField.toString b ++ ")")
    ∧ StoryField.toString (StoryField.User []) = "user()"
    ∧ PartField.toString (PartField.Group []) = "group()"
    ∧ (∀ sub, StoryField.toString (StoryField.Language sub) = "language") :=
  ⟨fun _ => rfl, fun _ => rfl, fun _ => rfl, fun _ => rfl, fun _ => rfl,
   fun _ => rfl, fun _ => rfl, fun _ _ => rfl, rfl, rfl, fun _ => rfl⟩

/-- C7: `fields()` with `None`, or with an empty caller-supplied list,
resolves the selection to exactly the `default_fields()` list of the kind in its
defined order; a non-empty caller-supplied list is used as given; and on
success the single appended `fields` parameter is the comma-join of the
serializations of the resolved selection. -/
theorem C7_default_resolution {α : Type} (K : FieldTraits α)
    (b : WattpadRequestBuilder) (is_auth : Bool) :
    resolve_fields K none = K.default_fields
    ∧ resolve_fields K (some []) = K.default_fields
    ∧ (∀ l : List α, l ≠ [] → resolve_fields K (some l) = l)
    ∧ (∀ fs b2, b.fields K is_auth fs = Except.ok b2 →
        b2.params = b.params ++
          [("fields", fields_str K (resolve_fields K fs))]) := by
  refine ⟨rfl, rfl, fun l hl => by simp [resolve_fields, hl], fun fs b2 hok => ?_⟩
  cases is_auth
  · rcases hfind : (resolve_fields K fs).find? K.auth_required with _ | g
    · rw [fields_false_eq_of_find?_none b hfind] at hok
      cases hok
      rfl
    · rw [fields_false_eq_of_find?_some b hfind] at hok
      cases hok
  · rw [fields_true_eq K b fs] at hok
    cases hok
    rfl

/-- Witness for C7 at the story kind: `None` resolves to the story default
list, a non-empty caller list is used as given, and the serialized parameter
of a successful call is the comma-join over the resolved selection. -/
theorem C7_witness :
    resolve_fields StoryField.traits none = StoryField.default_fields
    ∧ resolve_fields StoryField.traits (some [StoryField.Title, StoryField.VoteCount]) =
        [StoryField.Title, StoryField.VoteCount]
    ∧ { method := "GET", path := "/s", auth_required := false,
        params := [("fields", "title,voteCount")] : WattpadRequestBuilder }.params =
        (WattpadRequestBuilder.new "GET" "/s").params ++
          [("fields", fields_str StoryField.traits
            (resolve_fields StoryField.traits
              (some [StoryField.Title, StoryField.VoteCount])))] :=
  ⟨(C7_default_resolution StoryField.traits (WattpadRequestBuilder.new "GET" "/s") false).1,
   (C7_default_resolution StoryField.traits (WattpadRequestBuilder.new "GET" "/s") false).2.2.1
     [StoryField.Title, StoryField.VoteCount] (by simp),
   (C7_default_resolution StoryField.traits (WattpadRequestBuilder.new "GET" "/s") false).2.2.2
     (some [StoryField.Title, StoryField.VoteCount]) _ rfl⟩

/-- C8: for every resource kind, `default_fields()` is non-empty and contains
no field whose `auth_required` is true (for `UserStubField` and
`PartReferenceField`, which do not implement `AuthRequiredFields` in the
source, `auth_required` is the spec-modelled constant false). -/
theorem C8_defaults_nonempty_no_auth :
    (LanguageField.default_fields ≠ [] ∧
      ∀ f ∈ LanguageField.default_fields, LanguageField.auth_required f = false)
    ∧ (UserStubField.default_fields ≠ [] ∧
      ∀ f ∈ UserStubField.default_fields, UserStubField.auth_required f = false)
    ∧ (PartReferenceField.default_fields ≠ [] ∧
      ∀ f ∈ PartReferenceField.default_fields, PartReferenceField.auth_required f = false)
    ∧ (TextUrlField.default_fields ≠ [] ∧
      ∀ f ∈ TextUrlField.default_fields, TextUrlField.auth_required f = false)
    ∧ (PartContentField.default_fields ≠ [] ∧
      ∀ f ∈ PartContentField.default_fields, PartContentField.auth_required f = false)
    ∧ (PartStubField.default_fields ≠ [] ∧
      ∀ f ∈ PartStubField.default_fields, PartStubField.auth_required f = false)
    ∧ (StoryField.default_fields ≠ [] ∧
      ∀ f ∈ StoryField.default_fields, StoryField.auth_required f = false)
    ∧ (PartField.default_fields ≠ [] ∧
      ∀ f ∈ PartField.default_fields, PartField.auth_required f = false)
    ∧ (UserField.default_fields ≠ [] ∧
      ∀ f ∈ UserField.default_fields, UserField.auth_required f = false) := by
  refine ⟨⟨List.cons_ne_nil _ _, ?_⟩, ⟨List.cons_ne_nil _ _, ?_⟩,
    ⟨List.cons_ne_nil _ _, ?_⟩, ⟨List.cons_ne_nil _ _, ?_⟩,
    ⟨List.cons_ne_nil _ _, ?_⟩, ⟨List.cons_ne_nil _ _, ?_⟩,
    ⟨List.cons_ne_nil _ _, ?_⟩, ⟨List.cons_ne_nil _ _, ?_⟩,
    ⟨List.cons_ne_nil _ _, ?_⟩⟩ <;>
  · intro f hf
    fin_cases hf <;> rfl

/-- Witness for C8 at concrete fields: the head of the part-stub default
list and the head of the user default list are not auth-required. -/
theorem C8_witness :
    PartStubField.auth_required PartStubField.Id = false
    ∧ UserField.auth_required UserField.Username = false :=
  ⟨C8_defaults_nonempty_no_auth.2.2.2.2.2.1.2 PartStubField.Id (List.Mem.head _),
   C8_defaults_nonempty_no_auth.2.2.2.2.2.2.2.2.2 UserField.Username (List.Mem.head _)⟩

/-- C9 counterexample: `fields()` does not enforce uniqueness — the
caller-supplied selection `[Title, Title]` is processed successfully and the
duplicate is serialized twice in the wire parameter, so the identifiers of a
processed selection are not always unique. -/
theorem C9_counterexample :
    (WattpadRequestBuilder.new "GET" "/api/v3/stories/1").fields StoryField.traits
        true (some [StoryField.Title, StoryField.Title]) =
      Except.ok { method := "GET", path := "/api/v3/stories/1",
                  params := [("fields", "title,title")], auth_required := false }
    ∧ ¬ (resolve_fields StoryField.traits
          (some [StoryField.Title, StoryField.Title])).Nodup := by
  constructor
  · rfl
  · intro h
    exact (List.nodup_cons.mp h).1 (List.mem_singleton.mpr rfl)

/-- C9 (amended): `fields()` preserves the insertion order of the selection as the
wire order — the appended parameter is the comma-join of the
serialization of each resolved entry, in selection order, and a non-empty caller-supplied
list is passed through unchanged (in particular never deduplicated); the
default selection of every kind is duplicate-free (witnessed at the level of the
serialized tokens, which determines field-level uniqueness as well). -/
theorem C9_wire_order_and_default_uniqueness {α : Type} (K : FieldTraits α)
    (b : WattpadRequestBuilder) (is_auth : Bool) :
    (∀ fs b2, b.fields K is_auth fs = Except.ok b2 →
        b2.params = b.params ++
          [("fields", String.intercalate ","
            ((resolve_fields K fs).map K.to_string))])
    ∧ (∀ l : List α, l ≠ [] → resolve_fields K (some l) = l)
    ∧ (LanguageField.default_fields.map LanguageField.toString).Nodup
    ∧ (UserStubField.default_fields.map UserStubField.toString).Nodup
    ∧ (PartReferenceField.default_fields.map PartReferenceField.toString).Nodup
    ∧ (TextUrlField.default_fields.map TextUrlField.toString).Nodup
    ∧ (PartContentField.default_fields.map PartContentField.toString).Nodup
    ∧ (PartStubField.default_fields.map PartStubField.toString).Nodup
    ∧ (StoryField.default_fields.map StoryField.toString).Nodup
    ∧ (PartField.default_fields.map PartField.toString).Nodup
    ∧ (UserField.default_fields.map UserField.toString).Nodup := by
  refine ⟨fun fs b2 hok => ?_, fun l hl => by simp [resolve_fields, hl],
    by decide, by decide, by decide, by decide, by decide, by decide,
    by decide, by decide, by decide⟩
  cases is_auth
  · rcases hfind : (resolve_fields K fs).find? K.auth_required with _ | g
    · rw [fields_false_eq_of_find?_none b hfind] at hok
      cases hok
      rfl
    · rw [fields_false_eq_of_find?_some b hfind] at hok
      cases hok
  · rw [fields_true_eq K b fs] at hok
    cases hok
    rfl

/-- Witness for C9 (amended) at a concrete input: an authenticated call with
the two-element story selection `[VoteCount, Title]` serializes the entries
in exactly that order, and a non-empty list passes through as given. -/
theorem C9_witness :
    { method := "GET", path := "/s", auth_required := false,
      params := [("fields", "voteCount,title")] : WattpadRequestBuilder }.params =
      (WattpadRequestBuilder.new "GET" "/s").params ++
        [("fields", String.intercalate ","
          ((resolve_fields StoryField.traits
            (some [StoryField.VoteCount, StoryField.Title])).map
              StoryField.traits.to_string))]
    ∧ resolve_fields StoryField.traits (some [StoryField.VoteCount, StoryField.Title]) =
        [StoryField.VoteCount, StoryField.Title] :=
  ⟨(C9_wire_order_and_default_uniqueness StoryField.traits
      (WattpadRequestBuilder.new "GET" "/s") true).1
    (some [StoryField.VoteCount, StoryField.Title]) _ rfl,
   (C9_wire_order_and_default_uniqueness StoryField.traits
      (WattpadRequestBuilder.new "GET" "/s") true).2.1
    [StoryField.VoteCount, StoryField.Title] (by simp)⟩

/-- A builder whose endpoint-level flag is still false issues exactly one
request in every authentication state. -/
theorem run_request_issues_one (b : WattpadRequestBuilder)
    (hb : b.auth_required = false) (ia : Bool) :
    run_request (Except.ok b) ia =
      (Except.ok { method := b.method, url := "https://www.wattpad.com" ++ b.path,
                   params := b.params },
       [{ method := b.method, url := "https://www.wattpad.com" ++ b.path,
          params := b.params }]) := by
  simp [run_request, WattpadRequestBuilder.execute, WattpadRequestBuilder.issue,
    WattpadRequestBuilder.check_endpoint_auth, hb]

/-- C10: no public endpoint operation ever marks its request with the
endpoint-level auth requirement: `requires_auth` is never invoked, so
`auth_required` is false on every builder that reaches execution,
`check_endpoint_auth` succeeds in every authentication state, and every one
of the six operations goes on to issue exactly one request — the
endpoint-level `AuthenticationRequired` error is unreachable. -/
theorem C10_public_ops_no_endpoint_auth (is_auth : Bool) (username : String)
    (sid pid : Nat) (ufs : Option (List UserField))
    (sfs : Option (List StoryField)) (pfs : Option (List PartField)) :
    (∃ b, get_user_info_build is_auth username ufs = Except.ok b
        ∧ b.auth_required = false ∧ b.check_endpoint_auth is_auth = Except.ok ())
    ∧ (∃ b, get_story_info_build is_auth sid sfs = Except.ok b
        ∧ b.auth_required = false ∧ b.check_endpoint_auth is_auth = Except.ok ())
    ∧ (∃ b, get_part_info_build is_auth pid pfs = Except.ok b
        ∧ b.auth_required = false ∧ b.check_endpoint_auth is_auth = Except.ok ())
    ∧ ((get_part_content_raw_build pid).auth_required = false
        ∧ (get_part_content_raw_build pid).check_endpoint_auth is_auth = Except.ok ())
    ∧ ((get_part_content_json_build pid).auth_required = false
        ∧ (get_part_content_json_build pid).check_endpoint_auth is_auth = Except.ok ())
    ∧ ((get_story_content_zip_build sid).auth_required = false
        ∧ (get_story_content_zip_build sid).check_endpoint_auth is_auth = Except.ok ())
    ∧ (∃ req, get_user_info is_auth username ufs = (Except.ok req, [req]))
    ∧ (∃ req, get_story_info is_auth sid sfs = (Except.ok req, [req]))
    ∧ (∃ req, get_part_info is_auth pid pfs = (Except.ok req, [req]))
    ∧ (∃ req, get_part_content_raw is_auth pid = (Except.ok req, [req]))
    ∧ (∃ req, get_part_content_json is_auth pid = (Except.ok req, [req]))
    ∧ (∃ req, get_story_content_zip is_auth sid = (Except.ok req, [req])) := by
  have hu := fields_ok_of_no_auth (K := UserField.traits) (fun f => rfl)
    (WattpadRequestBuilder.new "GET" ("/api/v3/users/" ++ username)) is_auth ufs
  have hs := fields_ok_of_no_auth (K := StoryField.traits) (fun f => rfl)
    (WattpadRequestBuilder.new "GET" ("/api/v3/stories/" ++ toString sid)) is_auth sfs
  have hp := fields_ok_of_no_auth (K := PartField.traits) (fun f => rfl)
    (WattpadRequestBuilder.new "GET" ("/api/v3/story_parts/" ++ toString pid)) is_auth pfs
  refine ⟨⟨_, hu, rfl, rfl⟩, ⟨_, hs, rfl, rfl⟩, ⟨_, hp, rfl, rfl⟩,
    ⟨rfl, rfl⟩, ⟨rfl, rfl⟩, ⟨rfl, rfl⟩, ?_, ?_, ?_, ?_, ?_, ?_⟩
  · unfold get_user_info get_user_info_build
    rw [hu]
    exact ⟨_, run_request_issues_one _ rfl is_auth⟩
  · unfold get_story_info get_story_info_build
    rw [hs]
    exact ⟨_, run_request_issues_one _ rfl is_auth⟩
  · unfold get_part_info get_part_info_build
    rw [hp]
    exact ⟨_, run_request_issues_one _ rfl is_auth⟩
  · exact ⟨_, run_request_issues_one (get_part_content_raw_build pid) rfl is_auth⟩
  · exact ⟨_, run_request_issues_one (get_part_content_json_build pid) rfl is_auth⟩
  · exact ⟨_, run_request_issues_one (get_story_content_zip_build sid) rfl is_auth⟩

end WpMini
